import Mathlib

/-!
Shallow embedding of a single-session chat client: an API client
(`sendMessage`), an error classifier (`parseErrorMessage`), a backend
base-address resolver (`getApiBaseUrl`) and the conversation controller
(`handleSubmit`).  Asynchrony is modelled by passing the resolution of
the pending request explicitly: `sendMessage` is a function of the
outcome of the underlying `fetch`, and `handleSubmit` is split into its
synchronous phase (`handleSubmitStart`) and its resolution phase
(`handleSubmitResolve`).
-/

set_option maxRecDepth 40000

namespace ChatClient

/-- Substring containment, the semantics of JavaScript's
`String.prototype.includes` on ASCII strings: `sub` occurs contiguously
somewhere in `s`. -/
def containsSubstring (s sub : String) : Bool :=
  (List.range (s.data.length + 1)).any (fun i => sub.data.isPrefixOf (s.data.drop i))

/-- Whitespace trimming at both ends, the semantics of JavaScript's
`String.prototype.trim` on ASCII strings. -/
def trimString (s : String) : String :=
  ⟨((s.data.dropWhile Char.isWhitespace).reverse.dropWhile Char.isWhitespace).reverse⟩

/-! ## Error classifier (`parseErrorMessage` in the API client module) -/

/-- Fixed message returned for quota/billing errors. -/
def quotaMessage : String :=
  "OpenAI API quota exceeded. Please check your OpenAI account billing and usage limits. You may need to add payment information or upgrade your plan."

/-- Fixed message returned for missing API-key configuration. -/
def apiKeyMessage : String :=
  "OpenAI API key is not configured. Please set the OPENAI_API_KEY environment variable in your backend."

/-- Fixed message returned for authentication failures. -/
def invalidKeyMessage : String :=
  "Invalid OpenAI API key. Please check your API key configuration."

/-- Fixed message returned for rate limiting. -/
def rateLimitMessage : String :=
  "Rate limit exceeded. Please wait a moment and try again."

/-- The error classifier: case-sensitive substring tests applied in
priority order, first match wins, passthrough when none match. -/
def parseErrorMessage (errorDetail : String) : String :=
  if containsSubstring errorDetail "insufficient_quota" || containsSubstring errorDetail "quota" then
    quotaMessage
  else if containsSubstring errorDetail "OPENAI_API_KEY" || containsSubstring errorDetail "api key" then
    apiKeyMessage
  else if containsSubstring errorDetail "401" || containsSubstring errorDetail "unauthorized" || containsSubstring errorDetail "Invalid API key" then
    invalidKeyMessage
  else if containsSubstring errorDetail "429" || containsSubstring errorDetail "rate limit" then
    rateLimitMessage
  else
    errorDetail

/-- Reference form of the classifier taken from the specification: an
explicit ordered list of (trigger substrings, fixed message) rules. -/
def classifyRules : List (List String × String) :=
  [(["insufficient_quota", "quota"], quotaMessage),
   (["OPENAI_API_KEY", "api key"], apiKeyMessage),
   (["401", "unauthorized", "Invalid API key"], invalidKeyMessage),
   (["429", "rate limit"], rateLimitMessage)]

/-- First-match evaluation of an ordered rule list; passthrough when no
rule matches. -/
def firstMatch (d : String) : List (List String × String) → String
  | [] => d
  | (triggers, message) :: rest =>
      if triggers.any (fun t => containsSubstring d t) then message
      else firstMatch d rest

/-- The specification's classifier: the ordered rules evaluated
first-match-wins. -/
def classifySpec (d : String) : String := firstMatch d classifyRules

/-- C2: the coded classifier equals the ordered-rule reference
classifier on every detail string; a detail containing both a quota
trigger and a rate-limit trigger is classified by the earlier quota
rule; an unmatched detail passes through unchanged. -/
theorem parseErrorMessage_eq_orderedRules (d : String) :
    parseErrorMessage d = classifySpec d
    ∧ parseErrorMessage "You exceeded your current quota (error code 429)" = quotaMessage
    ∧ parseErrorMessage "random backend failure xyz" = "random backend failure xyz" := by
  refine ⟨?_, by decide, by decide⟩
  simp only [parseErrorMessage, classifySpec, classifyRules, firstMatch,
    List.any_cons, List.any_nil, Bool.or_false, Bool.or_assoc]

/-- C9: the classifier is idempotent; each fixed category message is a
fixed point of the classifier. -/
theorem parseErrorMessage_idempotent (d : String) :
    parseErrorMessage (parseErrorMessage d) = parseErrorMessage d
    ∧ parseErrorMessage quotaMessage = quotaMessage
    ∧ parseErrorMessage apiKeyMessage = apiKeyMessage
    ∧ parseErrorMessage invalidKeyMessage = invalidKeyMessage
    ∧ parseErrorMessage rateLimitMessage = rateLimitMessage := by
  refine ⟨?_, by decide, by decide, by decide, by decide⟩
  have step : parseErrorMessage d = quotaMessage ∨ parseErrorMessage d = apiKeyMessage
      ∨ parseErrorMessage d = invalidKeyMessage ∨ parseErrorMessage d = rateLimitMessage
      ∨ parseErrorMessage d = d := by
    unfold parseErrorMessage
    split_ifs <;> simp
  rcases step with h | h | h | h | h <;> rw [h]
  · decide
  · decide
  · decide
  · decide
  · exact h

/-! ## Base-address resolver (`getApiBaseUrl`) -/

/-- The execution context `getApiBaseUrl` branches on: the optional
`NEXT_PUBLIC_API_URL` environment value, and — when a browser `window`
exists — the browser's `window.location.hostname`. -/
structure ExecutionContext where
  envApiUrl : Option String
  browserHostname : Option String
deriving DecidableEq, Repr

/-- JavaScript truthiness of an optional string: an absent value and the
empty string are falsy. -/
def jsTruthy : Option String → Bool
  | none => false
  | some s => !(s == "")

/-- The fixed local-development backend address. -/
def localBackendUrl : String := "http://localhost:8000"

/-- Resolution of the backend base address: explicit override when
truthy; else, in a browser, the local address for a localhost hostname
and the empty (same-origin relative) base otherwise; else the local
address. -/
def getApiBaseUrl (ctx : ExecutionContext) : String :=
  if jsTruthy ctx.envApiUrl then ctx.envApiUrl.getD ""
  else
    match ctx.browserHostname with
    | some hostname =>
        if hostname == "localhost" || hostname == "127.0.0.1" then localBackendUrl
        else ""
    | none => localBackendUrl

/-! ## API client (`sendMessage`) -/

/-- The backend's successful payload. -/
structure ChatResponse where
  reply : String
deriving DecidableEq, Repr

/-- Outcome of the underlying `fetch` call, the input the rest of
`sendMessage` is a function of. -/
inductive FetchOutcome where
  /-- A response with a non-2xx status.  `body` is the JSON parse of the
  error body: `none` when the body is unparsable, `some detailField`
  when it parses, with `detailField` the optional `detail` field (which
  may itself be present but empty). -/
  | httpError (status : Nat) (body : Option (Option String))
  /-- A response with a 2xx status.  `body` is the JSON parse of the
  success body: a `ChatResponse`, or a parse failure carrying the thrown
  exception's message. -/
  | httpOk (body : Except String ChatResponse)
  /-- The request never reached the server; `message` is the transport
  exception's message. -/
  | networkError (message : String)

/-- Result of `sendMessage`: the parsed response, or the message of the
error it throws. -/
inductive SendResult where
  | ok (response : ChatResponse)
  | err (message : String)
deriving DecidableEq, Repr

/-- The detail synthesized when the error body cannot be parsed. -/
def httpErrorDetail (status : Nat) : String :=
  "HTTP error! status: " ++ toString status

/-- The fallback used when the parsed error body has a falsy `detail`. -/
def requestFailedDetail (status : Nat) : String :=
  "Request failed with status " ++ toString status

/-- JavaScript `s || fallback` on strings: the empty string is falsy. -/
def jsStringOr (s fallback : String) : String :=
  if s = "" then fallback else s

/-- The detail string handed to the classifier for a non-2xx response:
`errorData.detail || requestFailedDetail`, where `errorData` is the
parsed body or, when parsing fails, the synthesized
`{detail := httpErrorDetail}`. -/
def detailOrFallback (status : Nat) (body : Option (Option String)) : String :=
  let errorDetail : Option String :=
    match body with
    | none => some (httpErrorDetail status)
    | some detailField => detailField
  match errorDetail with
  | some s => jsStringOr s (requestFailedDetail status)
  | none => requestFailedDetail status

/-- The fixed connectivity message. -/
def connectivityMessage : String :=
  "Unable to connect to the server. Please make sure the backend is running on http://localhost:8000"

/-- The `catch` block of `sendMessage`: an error whose message contains
`fetch` (or `Failed to fetch`) is replaced by the fixed connectivity
message; any other error propagates unchanged. -/
def catchHandler (message : String) : String :=
  if containsSubstring message "fetch" || containsSubstring message "Failed to fetch" then
    connectivityMessage
  else message

/-- `sendMessage` as a function of the fetch outcome.  A non-2xx
response throws the classified detail, which the `catch` block then
inspects; a 2xx response returns the parsed body verbatim; a body-parse
failure on the 2xx path and a transport failure both reach the `catch`
block with the underlying exception's message. -/
def sendMessage (outcome : FetchOutcome) : SendResult :=
  match outcome with
  | .httpError status body =>
      .err (catchHandler (parseErrorMessage (detailOrFallback status body)))
  | .httpOk (.ok data) => .ok data
  | .httpOk (.error parseMsg) => .err (catchHandler parseMsg)
  | .networkError message => .err (catchHandler message)

lemma httpErrorDetail_ne_empty (status : Nat) : httpErrorDetail status ≠ "" := by
  intro h
  have h2 : ("HTTP error! status: ").data ++ (toString status).data = [] := by
    rw [← String.data_append]
    rw [httpErrorDetail] at h
    rw [h]
  rcases List.append_eq_nil.mp h2 with ⟨h3, _⟩
  exact absurd h3 (by decide)

/-- C3 counterexample: at status 401 the synthesized detail
`HTTP error! status: 401` contains the substring `401`, so the
credential rule of the classifier matches it and the message passed on
is the fixed credential message, not the synthesized string. -/
theorem unparsableBody_401_not_passthrough :
    sendMessage (FetchOutcome.httpError 401 none) = SendResult.err invalidKeyMessage
    ∧ invalidKeyMessage ≠ httpErrorDetail 401 := by
  exact ⟨by decide, by decide⟩

/-- C3 (amended): for every non-2xx response with an unparsable body,
the detail handed to the classifier is exactly `HTTP error! status:
<code>`; when no classifier rule matches that string and it does not
trigger the connectivity heuristic of the catch block (as for status
500), the error carries exactly that string. -/
theorem unparsableBody_detail_passthrough (status : Nat)
    (hclass : parseErrorMessage (httpErrorDetail status) = httpErrorDetail status)
    (hfetch : (containsSubstring (httpErrorDetail status) "fetch"
        || containsSubstring (httpErrorDetail status) "Failed to fetch") = false) :
    detailOrFallback status none = httpErrorDetail status
    ∧ sendMessage (FetchOutcome.httpError status none)
        = SendResult.err (httpErrorDetail status) := by
  have hdetail : detailOrFallback status none = httpErrorDetail status := by
    unfold detailOrFallback jsStringOr
    simp only []
    rw [if_neg (httpErrorDetail_ne_empty status)]
  refine ⟨hdetail, ?_⟩
  simp only [sendMessage]
  rw [hdetail, hclass]
  simp only [catchHandler]
  rw [hfetch]
  simp

/-- C3 witness at status 500. -/
theorem unparsableBody_detail_passthrough_witness :
    sendMessage (FetchOutcome.httpError 500 none) = SendResult.err (httpErrorDetail 500) :=
  (unparsableBody_detail_passthrough 500 (by decide) (by decide)).2

/-- C4 counterexample: an HTTP 500 response whose parsed detail is
`upstream fetch failed` matches no classifier rule, so the classified
application-level message is that detail verbatim; yet the catch block's
substring heuristic sees `fetch` in it and replaces it with the fixed
connectivity message. -/
theorem httpError_replaced_by_connectivity :
    parseErrorMessage "upstream fetch failed" = "upstream fetch failed"
    ∧ sendMessage (FetchOutcome.httpError 500 (some (some "upstream fetch failed")))
        = SendResult.err connectivityMessage
    ∧ connectivityMessage ≠ "upstream fetch failed" := by
  exact ⟨by decide, by decide, by decide⟩

/-- C4 (amended): a transport failure is mapped to the fixed
connectivity message exactly when its message contains `fetch` (or
`Failed to fetch`); any other transport failure's message propagates
unchanged. -/
theorem networkError_fetch_heuristic (message : String) :
    ((containsSubstring message "fetch" || containsSubstring message "Failed to fetch") = true →
      sendMessage (FetchOutcome.networkError message) = SendResult.err connectivityMessage)
    ∧ ((containsSubstring message "fetch" || containsSubstring message "Failed to fetch") = false →
      sendMessage (FetchOutcome.networkError message) = SendResult.err message) := by
  constructor <;> intro h <;> simp only [sendMessage, catchHandler] <;> rw [h] <;> simp

/-- C4 witness: the browser transport-failure message `Failed to fetch`
is converted to the fixed connectivity message. -/
theorem networkError_fetch_heuristic_witness :
    sendMessage (FetchOutcome.networkError "Failed to fetch")
      = SendResult.err connectivityMessage :=
  (networkError_fetch_heuristic "Failed to fetch").1 (by decide)

/-- C8: a 2xx response whose body parses as a `ChatResponse` is returned
verbatim; in particular an empty-string reply is a successful result. -/
theorem success_returned_verbatim (data : ChatResponse) :
    sendMessage (FetchOutcome.httpOk (Except.ok data)) = SendResult.ok data
    ∧ sendMessage (FetchOutcome.httpOk (Except.ok ⟨""⟩)) = SendResult.ok ⟨""⟩ :=
  ⟨rfl, rfl⟩

/-- C10: a parsed error body with an absent or empty `detail` field
falls back to `Request failed with status <code>`; the synthesized
`HTTP error! status: <code>` form arises in the parse-failure branch; a
non-empty parsed detail passes through; and the classification input for
the absent-detail case is exactly the fallback string. -/
theorem parsedBody_detail_fallback (status : Nat) (detail : String) (hd : detail ≠ "") :
    detailOrFallback status (some none) = requestFailedDetail status
    ∧ detailOrFallback status (some (some "")) = requestFailedDetail status
    ∧ detailOrFallback status none = httpErrorDetail status
    ∧ detailOrFallback status (some (some detail)) = detail
    ∧ sendMessage (FetchOutcome.httpError status (some none))
        = SendResult.err (catchHandler (parseErrorMessage (requestFailedDetail status))) := by
  refine ⟨rfl, rfl, ?_, ?_, rfl⟩
  · unfold detailOrFallback jsStringOr
    simp only []
    rw [if_neg (httpErrorDetail_ne_empty status)]
  · unfold detailOrFallback jsStringOr
    simp only []
    rw [if_neg hd]

/-- C10 witness at status 500. -/
theorem parsedBody_detail_fallback_witness :
    detailOrFallback 500 (some (some "boom")) = "boom" :=
  (parsedBody_detail_fallback 500 "boom" (by decide)).2.2.2.1

/-- C7: base-address precedence — a non-empty explicit override is
returned in every context; with no override, a browser on a non-local
hostname resolves to the empty (same-origin) base, a browser on
`localhost` or `127.0.0.1` resolves to the fixed local address, and the
absence of a browser context resolves to the fixed local address. -/
theorem getApiBaseUrl_precedence (url : String) (w : Option String) (hurl : url ≠ "") :
    getApiBaseUrl ⟨some url, w⟩ = url
    ∧ (∀ hostname : String, hostname ≠ "localhost" → hostname ≠ "127.0.0.1" →
        getApiBaseUrl ⟨none, some hostname⟩ = "")
    ∧ getApiBaseUrl ⟨none, some "localhost"⟩ = localBackendUrl
    ∧ getApiBaseUrl ⟨none, some "127.0.0.1"⟩ = localBackendUrl
    ∧ getApiBaseUrl ⟨none, none⟩ = localBackendUrl := by
  refine ⟨?_, ?_, by decide, by decide, rfl⟩
  · simp [getApiBaseUrl, jsTruthy, hurl]
  · intro hostname h1 h2
    simp [getApiBaseUrl, jsTruthy, h1, h2]

/-- C7 witness: a concrete override and a concrete non-local hostname. -/
theorem getApiBaseUrl_precedence_witness :
    getApiBaseUrl ⟨some "https://api.example.com", none⟩ = "https://api.example.com"
    ∧ getApiBaseUrl ⟨none, some "myapp.vercel.app"⟩ = "" :=
  ⟨(getApiBaseUrl_precedence "https://api.example.com" none (by decide)).1,
   (getApiBaseUrl_precedence "x" none (by decide)).2.1 "myapp.vercel.app" (by decide) (by decide)⟩

/-! ## Conversation controller (`handleSubmit` in the page component) -/

/-- A chat message's role. -/
inductive Role where
  | user
  | assistant
deriving DecidableEq, Repr

/-- One entry of the message log; the timestamp is an abstract instant. -/
structure Message where
  role : Role
  content : String
  timestamp : Nat
deriving DecidableEq, Repr

/-- The controller's state: the ordered message log, the input buffer,
the `isLoading` (Sending) flag, and the last-error slot. -/
structure ConvState where
  messages : List Message
  input : String
  isLoading : Bool
  error : Option String
deriving DecidableEq, Repr

/-- The presentation wrapper the controller applies to a failure's
message before appending it as an assistant message. -/
def wrapError (errorMessage : String) : String :=
  if containsSubstring errorMessage "quota" || containsSubstring errorMessage "billing" then
    "I'm unable to respond right now due to an API quota issue. " ++ errorMessage
  else if containsSubstring errorMessage "API key" then
    "Configuration issue: " ++ errorMessage
  else
    "Sorry, I encountered an error: " ++ errorMessage ++ ". Please try again."

/-- The synchronous phase of an accepted submission: append the user
message with the trimmed input, clear the input buffer, raise
`isLoading` and clear the error slot. -/
def handleSubmitStart (s : ConvState) (now : Nat) : ConvState :=
  { messages := s.messages ++ [⟨Role.user, trimString s.input, now⟩],
    input := "", isLoading := true, error := none }

/-- The resolution phase: on success append the assistant message with
the reply; on failure record the error and append the wrapped error
narration; in both cases lower `isLoading`. -/
def handleSubmitResolve (s : ConvState) (result : SendResult) (now : Nat) : ConvState :=
  match result with
  | .ok response =>
      { s with
        messages := s.messages ++ [⟨Role.assistant, response.reply, now⟩],
        isLoading := false }
  | .err message =>
      { s with
        messages := s.messages ++ [⟨Role.assistant, wrapError message, now⟩],
        error := some message,
        isLoading := false }

/-- One full submission: the guard drops a blank input or a submission
made while `isLoading`; otherwise the synchronous phase runs, the API
client is invoked on the trimmed input, and its resolution is folded
back in.  The boolean records whether a request was issued. -/
def handleSubmit (s : ConvState) (api : String → SendResult)
    (tSubmit tResolve : Nat) : ConvState × Bool :=
  if trimString s.input = "" ∨ s.isLoading = true then (s, false)
  else
    (handleSubmitResolve (handleSubmitStart s tSubmit) (api (trimString s.input)) tResolve,
     true)

/-- The content of the assistant message a resolution appends: the real
reply on success, the wrapped error narration on failure. -/
def replyOrNarration (result : SendResult) : String :=
  match result with
  | .ok response => response.reply
  | .err message => wrapError message

/-- C1: an accepted submission (non-blank input, not Sending) appends
exactly one user message with the trimmed input in its synchronous
phase and, once the API client resolves, exactly one assistant message
carrying the reply or the error narration; the log grows by exactly two
and ends with an assistant message. -/
theorem submission_appends_exactly_two (s : ConvState) (api : String → SendResult)
    (tSubmit tResolve : Nat)
    (hin : trimString s.input ≠ "") (hld : s.isLoading = false) :
    (handleSubmitStart s tSubmit).messages
        = s.messages ++ [⟨Role.user, trimString s.input, tSubmit⟩]
    ∧ (handleSubmit s api tSubmit tResolve).1.messages
        = s.messages ++ [⟨Role.user, trimString s.input, tSubmit⟩,
            ⟨Role.assistant, replyOrNarration (api (trimString s.input)), tResolve⟩]
    ∧ (handleSubmit s api tSubmit tResolve).1.messages.length = s.messages.length + 2
    ∧ ((handleSubmit s api tSubmit tResolve).1.messages.getLast?).map Message.role
        = some Role.assistant := by
  have hguard : ¬(trimString s.input = "" ∨ s.isLoading = true) := by
    rintro (h | h)
    · exact hin h
    · rw [hld] at h
      exact Bool.false_ne_true h
  have h2 : (handleSubmit s api tSubmit tResolve).1.messages
      = s.messages ++ [⟨Role.user, trimString s.input, tSubmit⟩,
          ⟨Role.assistant, replyOrNarration (api (trimString s.input)), tResolve⟩] := by
    unfold handleSubmit
    rw [if_neg hguard]
    rcases h : api (trimString s.input) with response | message <;>
      simp [handleSubmitStart, handleSubmitResolve, replyOrNarration, h]
  refine ⟨rfl, h2, ?_, ?_⟩
  · rw [h2]
    simp
  · rw [h2, show s.messages ++ [(⟨Role.user, trimString s.input, tSubmit⟩ : Message),
        ⟨Role.assistant, replyOrNarration (api (trimString s.input)), tResolve⟩]
      = (s.messages ++ [⟨Role.user, trimString s.input, tSubmit⟩])
        ++ [⟨Role.assistant, replyOrNarration (api (trimString s.input)), tResolve⟩] by simp,
      List.getLast?_concat]
    rfl

/-- C1 witness: a concrete accepted submission grows the log by two. -/
theorem submission_appends_exactly_two_witness :
    (handleSubmit ⟨[], "hi", false, none⟩ (fun _ => SendResult.ok ⟨"hello"⟩) 0 1).1.messages.length
      = ([] : List Message).length + 2 :=
  (submission_appends_exactly_two ⟨[], "hi", false, none⟩
    (fun _ => SendResult.ok ⟨"hello"⟩) 0 1 (by decide) rfl).2.2.1

/-- C5: the Sending flag is raised by the synchronous phase of an
accepted submission, lowered by every resolution (success or failure),
and while it is raised every submission is refused without issuing a
request. -/
theorem isLoading_spans_request (s : ConvState) (tSubmit : Nat)
    (hin : trimString s.input ≠ "") (hld : s.isLoading = false) :
    (handleSubmitStart s tSubmit).isLoading = true
    ∧ (∀ (s2 : ConvState) (result : SendResult) (tResolve : Nat),
        (handleSubmitResolve s2 result tResolve).isLoading = false)
    ∧ (∀ (s2 : ConvState) (api : String → SendResult) (t1 t2 : Nat),
        s2.isLoading = true → handleSubmit s2 api t1 t2 = (s2, false)) := by
  refine ⟨rfl, fun s2 result tResolve => ?_, fun s2 api t1 t2 h => ?_⟩
  · cases result <;> rfl
  · unfold handleSubmit
    rw [if_pos (Or.inr h)]

/-- C5 witness: a concrete accepted submission raises the flag. -/
theorem isLoading_spans_request_witness :
    (handleSubmitStart ⟨[], "hi", false, none⟩ 0).isLoading = true :=
  (isLoading_spans_request ⟨[], "hi", false, none⟩ 0 (by decide) rfl).1

/-- C6: a blank or whitespace-only input, or a submission attempted
while Sending, is a no-op: the whole state (log, input buffer, Sending
flag, error slot) is unchanged and no request is issued. -/
theorem guarded_submission_noop (s : ConvState) (api : String → SendResult)
    (tSubmit tResolve : Nat)
    (h : trimString s.input = "" ∨ s.isLoading = true) :
    handleSubmit s api tSubmit tResolve = (s, false) := by
  unfold handleSubmit
  rw [if_pos h]

/-- C6 witness: submitting a whitespace-only input is a no-op. -/
theorem guarded_submission_noop_witness :
    handleSubmit ⟨[], "   ", false, none⟩ (fun _ => SendResult.ok ⟨"x"⟩) 0 1
      = (⟨[], "   ", false, none⟩, false) :=
  guarded_submission_noop ⟨[], "   ", false, none⟩
    (fun _ => SendResult.ok ⟨"x"⟩) 0 1 (Or.inl (by decide))

end ChatClient
